import Mathlib

/-!
Shallow embedding of the sloggers crate (dvtomas/sloggers): the configuration
data model (src/types.rs, src/config.rs, src/terminal.rs, src/null.rs), the
filter-spec compilation, the drain-composition pipeline (src/misc.rs), and a
serde-style serialization model, together with theorems checking the
specification's claims against these definitions.
-/

namespace Sloggers

/-- The severity of a log record, from src/types.rs.  Variants in source
order: Trace, Debug, Info, Warning, Error, Critical. -/
inductive Severity where
  | Trace
  | Debug
  | Info
  | Warning
  | Error
  | Critical
deriving DecidableEq, Repr

/-- Numeric rank of a severity following the declaration order of the Rust
enum (Trace < Debug < Info < Warning < Error < Critical), which is the
derived Ord of src/types.rs. -/
def Severity.toNat : Severity → Nat
  | .Trace => 0
  | .Debug => 1
  | .Info => 2
  | .Warning => 3
  | .Error => 4
  | .Critical => 5

/-- The slog crate's record level (external dependency of src/types.rs);
mirrored with the six levels relevant here. -/
inductive Level where
  | Trace
  | Debug
  | Info
  | Warning
  | Error
  | Critical
deriving DecidableEq, Repr

/-- Rank of a level such that a larger rank means a more severe record;
"level at least l" compares ranks. -/
def Level.toNat : Level → Nat
  | .Trace => 0
  | .Debug => 1
  | .Info => 2
  | .Warning => 3
  | .Error => 4
  | .Critical => 5

/-- Severity::as_level from src/types.rs: the evident map onto slog levels. -/
def Severity.as_level : Severity → Level
  | .Trace => Level.Trace
  | .Debug => Level.Debug
  | .Info => Level.Info
  | .Warning => Level.Warning
  | .Error => Level.Error
  | .Critical => Level.Critical

/-- impl Default for Severity in src/types.rs. -/
def Severity.default : Severity := Severity.Info

/-- Error kinds of the crate.  Modelled from the spec: src/error.rs is not
part of the provided sources; the spec (section 7) names the kinds Invalid
(malformed configuration value) and Other (IO or lower-level failure). -/
inductive ErrorKind where
  | Invalid
  | Other
deriving DecidableEq, Repr

/-- The crate's error value.  Modelled from the spec: src/error.rs is not in
the provided sources; the spec requires an error to carry a kind and a
message citing the offending literal, which is what track_panic! produces
(a kind together with the formatted message). -/
structure Error where
  kind : ErrorKind
  message : String
deriving DecidableEq, Repr

/-- The crate's specialized Result type from src/lib.rs:
a value or a crate Error. -/
abbrev Result (α : Type) : Type := Except Error α

/-- Escape of one character as performed by Rust's Debug formatting of a
string (the escapes relevant to configuration literals: quote, backslash and
the common control characters). -/
def rustDebugChar (c : Char) : List Char :=
  if c = '"' then ['\\', '"']
  else if c = '\\' then ['\\', '\\']
  else if c = '\n' then ['\\', 'n']
  else if c = '\r' then ['\\', 'r']
  else if c = '\t' then ['\\', 't']
  else [c]

/-- Rust's Debug formatting of a string slice, as produced by a
format-string placeholder of Debug kind: the string surrounded by double
quotes with the special characters escaped. -/
def rustDebugStr (s : String) : String :=
  "\"" ++ String.mk ((s.toList.map rustDebugChar).flatten) ++ "\""

/-- Substring test on strings (via their character lists): true when needle
occurs contiguously inside hay. -/
def containsSubstr (hay needle : String) : Bool :=
  let h := hay.toList
  let n := needle.toList
  (List.range (h.length + 1)).any (fun i => (h.drop i).take n.length == n)

/-- impl FromStr for Severity, src/types.rs: the six lowercase literals
parse; anything else is an Invalid error whose message is the format string
"Undefined severity: " followed by the Debug form of the input. -/
def Severity.from_str (s : String) : Result Severity :=
  match s with
  | "trace" => .ok Severity.Trace
  | "debug" => .ok Severity.Debug
  | "info" => .ok Severity.Info
  | "warning" => .ok Severity.Warning
  | "error" => .ok Severity.Error
  | "critical" => .ok Severity.Critical
  | _ => .error ⟨ErrorKind.Invalid, "Undefined severity: " ++ rustDebugStr s⟩

/-- The format of log records, src/types.rs. -/
inductive Format where
  | Full
  | Compact
deriving DecidableEq, Repr

/-- impl Default for Format in src/types.rs. -/
def Format.default : Format := Format.Full

/-- impl FromStr for Format, src/types.rs. -/
def Format.from_str (s : String) : Result Format :=
  match s with
  | "full" => .ok Format.Full
  | "compact" => .ok Format.Compact
  | _ => .error ⟨ErrorKind.Invalid, "Undefined log format: " ++ rustDebugStr s⟩

/-- Time zone, src/types.rs. -/
inductive TimeZone where
  | Utc
  | Local
deriving DecidableEq, Repr

/-- impl Default for TimeZone in src/types.rs. -/
def TimeZone.default : TimeZone := TimeZone.Local

/-- impl FromStr for TimeZone, src/types.rs. -/
def TimeZone.from_str (s : String) : Result TimeZone :=
  match s with
  | "utc" => .ok TimeZone.Utc
  | "local" => .ok TimeZone.Local
  | _ => .error ⟨ErrorKind.Invalid, "Undefined time zone: " ++ rustDebugStr s⟩

/-- Source location policy, src/types.rs. -/
inductive SourceLocation where
  | None
  | ModuleAndLine
deriving DecidableEq, Repr

/-- impl Default for SourceLocation in src/types.rs. -/
def SourceLocation.default : SourceLocation := SourceLocation.ModuleAndLine

/-- impl FromStr for SourceLocation, src/types.rs (snake_case literals). -/
def SourceLocation.from_str (s : String) : Result SourceLocation :=
  match s with
  | "none" => .ok SourceLocation.None
  | "module_and_line" => .ok SourceLocation.ModuleAndLine
  | _ => .error ⟨ErrorKind.Invalid, "Undefined source code location: " ++ rustDebugStr s⟩

/-- The boolean filter-expression tree of the external slog_kvfilter crate.
Modelled from the spec (section 3): atoms LevelAtLeast and MatchKeyValue,
composed with And, Or, Not and the n-ary AllOf and AnyOf.  src/types.rs
builds values of this type through the constructors and the combinators
below. -/
inductive FilterSpec where
  | LevelAtLeast : Level → FilterSpec
  | MatchKeyValue : String → String → FilterSpec
  | And : FilterSpec → FilterSpec → FilterSpec
  | Or : FilterSpec → FilterSpec → FilterSpec
  | Not : FilterSpec → FilterSpec
  | AllOf : List FilterSpec → FilterSpec
  | AnyOf : List FilterSpec → FilterSpec
deriving Repr

/-- FilterSpec::match_kv of the external crate as used by src/types.rs. -/
def FilterSpec.match_kv (key value : String) : FilterSpec :=
  FilterSpec.MatchKeyValue key value

/-- FilterSpec::and of the external crate as used by src/types.rs. -/
def FilterSpec.and (a b : FilterSpec) : FilterSpec :=
  FilterSpec.And a b

/-- FilterSpec::or of the external crate as used by src/types.rs. -/
def FilterSpec.or (a b : FilterSpec) : FilterSpec :=
  FilterSpec.Or a b

/-- FilterSpec::all_of of the external crate as used by src/types.rs. -/
def FilterSpec.all_of (xs : List FilterSpec) : FilterSpec :=
  FilterSpec.AllOf xs

/-- FilterSpec::any_of of the external crate as used by src/types.rs. -/
def FilterSpec.any_of (xs : List FilterSpec) : FilterSpec :=
  FilterSpec.AnyOf xs

mutual

/-- Evaluation of a filter spec against a candidate record (its level and
its key-value attributes).  Modelled from the spec (section 4.2):
LevelAtLeast is rank comparison, MatchKeyValue is membership of the pair
among the record's attributes, the connectives are boolean, empty AllOf is
true and empty AnyOf is false. -/
def evaluate : FilterSpec → Level → List (String × String) → Bool
  | .LevelAtLeast s, lvl, _ => Nat.ble s.toNat lvl.toNat
  | .MatchKeyValue k v, _, kvs => kvs.contains (k, v)
  | .And a b, lvl, kvs => evaluate a lvl kvs && evaluate b lvl kvs
  | .Or a b, lvl, kvs => evaluate a lvl kvs || evaluate b lvl kvs
  | .Not a, lvl, kvs => !(evaluate a lvl kvs)
  | .AllOf xs, lvl, kvs => evalAll xs lvl kvs
  | .AnyOf xs, lvl, kvs => evalAny xs lvl kvs

/-- Conjunction of the evaluations of a list of filter specs. -/
def evalAll : List FilterSpec → Level → List (String × String) → Bool
  | [], _, _ => true
  | x :: xs, lvl, kvs => evaluate x lvl kvs && evalAll xs lvl kvs

/-- Disjunction of the evaluations of a list of filter specs. -/
def evalAny : List FilterSpec → Level → List (String × String) → Bool
  | [], _, _ => false
  | x :: xs, lvl, kvs => evaluate x lvl kvs || evalAny xs lvl kvs

end

/-- PassIfMatch from src/types.rs: key-value pairs that must all match,
plus a minimum severity. -/
structure PassIfMatch where
  keys_and_values : List (String × String)
  severity_at_least : Severity
deriving Repr

/-- PassIfMatch::to_filter_spec from src/types.rs: map match_kv over the
pairs, then LevelAtLeast(severity_at_least.as_level()).and(all_of(...)). -/
def PassIfMatch.to_filter_spec (p : PassIfMatch) : FilterSpec :=
  let match_filters := p.keys_and_values.map (fun kv => FilterSpec.match_kv kv.1 kv.2)
  (FilterSpec.LevelAtLeast p.severity_at_least.as_level).and
    (FilterSpec.all_of match_filters)

/-- FilterConfig from src/types.rs: either the PassOnAnyOf convenience
shape or a verbatim Custom filter spec. -/
inductive FilterConfig where
  | PassOnAnyOf (always_pass_on_severity_at_least : Severity) (passes : List PassIfMatch)
  | Custom (filter_spec : FilterSpec)
deriving Repr

/-- impl Default for FilterConfig in src/types.rs: PassOnAnyOf with the
default severity and no passes. -/
def FilterConfig.default : FilterConfig :=
  FilterConfig.PassOnAnyOf Severity.default []

/-- FilterConfig::to_filter_spec from src/types.rs: PassOnAnyOf compiles to
LevelAtLeast(threshold.as_level()).or(any_of(passes mapped through
PassIfMatch::to_filter_spec)); Custom is used verbatim. -/
def FilterConfig.to_filter_spec : FilterConfig → FilterSpec
  | .PassOnAnyOf always_pass_on_severity_at_least passes =>
      let variant_filters := passes.map (fun elem => elem.to_filter_spec)
      (FilterSpec.LevelAtLeast always_pass_on_severity_at_least.as_level).or
        (FilterSpec.any_of variant_filters)
  | .Custom filter_spec => filter_spec

/-- The evaluation-order policy of the external slog_kvfilter crate.
Modelled from the spec (section 4.2): one policy evaluates the logger's
bound fields first, the other the message's ad-hoc fields first.  The
serialized names appear in the configuration examples of src/config.rs. -/
inductive EvaluationOrder where
  | LoggerAndMessage
  | MessageAndLogger
deriving DecidableEq, Repr

/-- Default of the external EvaluationOrder.  Modelled from the spec: the
default is implementation-defined; the configuration examples of
src/config.rs and src/lib.rs spell it LoggerAndMessage. -/
def EvaluationOrder.default : EvaluationOrder := EvaluationOrder.LoggerAndMessage

/-- KVFilterConfig of the external slog_kvfilter crate as constructed in
src/terminal.rs: a compiled filter spec plus the evaluation order. -/
structure KVFilterConfig where
  filter_spec : FilterSpec
  evaluation_order : EvaluationOrder
deriving Repr

/-- The destination of terminal log records, src/terminal.rs. -/
inductive Destination where
  | Stdout
  | Stderr
deriving DecidableEq, Repr

/-- impl Default for Destination in src/terminal.rs. -/
def Destination.default : Destination := Destination.Stdout

/-- A slog_term TermDecorator (external): built for a chosen stream by
TermDecorator::new().stdout() or .stderr() in src/terminal.rs; carries the
stream it was bound to. -/
structure TermDecorator where
  stream : Destination
deriving DecidableEq, Repr

/-- The Decorator enum of src/terminal.rs: a terminal-capable decorator, or
a plain decorator bound to stdout, or a plain decorator bound to stderr. -/
inductive Decorator where
  | Term : TermDecorator → Decorator
  | PlainStdout : Decorator
  | PlainStderr : Decorator
deriving DecidableEq, Repr

/-- The stream a resolved decorator writes to: a Term decorator writes to
the stream it was built for, PlainStdout to stdout, PlainStderr to
stderr. -/
def Decorator.stream : Decorator → Destination
  | .Term t => t.stream
  | .PlainStdout => Destination.Stdout
  | .PlainStderr => Destination.Stderr

/-- Destination::to_decorator from src/terminal.rs.  TermDecorator
acquisition (try_build) can fail depending on the environment; the
environment is passed explicitly as the predicate term_avail telling for
which streams a terminal-capable decorator is obtainable.  On failure the
code falls back, by matching on self again, to the plain decorator of the
same stream. -/
def Destination.to_decorator (term_avail : Destination → Bool) (d : Destination) : Decorator :=
  let maybe_term_decorator : Option TermDecorator :=
    match d with
    | .Stdout => if term_avail .Stdout then some ⟨.Stdout⟩ else none
    | .Stderr => if term_avail .Stderr then some ⟨.Stderr⟩ else none
  match maybe_term_decorator.map Decorator.Term with
  | some dec => dec
  | none =>
      match d with
      | .Stdout => Decorator.PlainStdout
      | .Stderr => Decorator.PlainStderr

/-- The timestamp function selected in src/misc.rs: slog_term's UTC or
local timestamp printer. -/
inductive TimestampFn where
  | timestamp_utc
  | timestamp_local
deriving DecidableEq, Repr

/-- timezone_to_timestamp_fn from src/misc.rs. -/
def timezone_to_timestamp_fn : TimeZone → TimestampFn
  | .Utc => TimestampFn.timestamp_utc
  | .Local => TimestampFn.timestamp_local

/-- A log record's call-site data as exposed by slog's Record:
the originating module and line. -/
structure Record where
  module : String
  line : Nat

/-- module_and_line from src/misc.rs: the record's module and line joined
by a colon. -/
def module_and_line (record : Record) : String :=
  record.module ++ ":" ++ toString record.line

/-- A value bound into a logger's context: src/misc.rs and src/terminal.rs
bind FnValue(module_and_line), a function computed lazily per record. -/
inductive BoundValue where
  | FnValue : (Record → String) → BoundValue

/-- The drain stages out of which the crate composes loggers, innermost
structure mirroring the wrapping order of the source: a raw generic sink
(the drain argument of src/misc.rs), the Discard sink of src/null.rs, a
slog_term formatting drain over a decorator (src/terminal.rs), the
slog_async stage with its channel size, and the KVFilter stage. -/
inductive DrainTree where
  | sink : DrainTree
  | Discard : DrainTree
  | Formatted : Format → Decorator → TimestampFn → DrainTree
  | Async : Nat → DrainTree → DrainTree
  | KVFilter : KVFilterConfig → DrainTree → DrainTree

/-- A composed slog Logger: its drain chain and the key-value pairs bound
at the root. -/
structure Logger where
  drain : DrainTree
  values : List (String × BoundValue)

/-- The guard handle returned by slog_async's build_with_guard. -/
inductive AsyncGuard where
  | guard
deriving DecidableEq, Repr

/-- Whether a record (level and key-value attributes) reaches the
underlying sink of a drain chain.  Modelled from the spec (sections 4.2 and
4.4): the async stage forwards every record it receives, the KVFilter stage
forwards exactly the records its filter spec accepts, Discard delivers
nothing, and the raw and formatting sinks emit what reaches them. -/
def DrainTree.emits : DrainTree → Level → List (String × String) → Bool
  | .sink, _, _ => true
  | .Discard, _, _ => false
  | .Formatted _ _ _, _, _ => true
  | .Async _ inner, lvl, kvs => inner.emits lvl kvs
  | .KVFilter cfg inner, lvl, kvs => evaluate cfg.filter_spec lvl kvs && inner.emits lvl kvs

/-- build_with_drain from src/misc.rs: wrap the drain in the slog_async
stage with the given channel size (obtaining a guard), wrap that in the
KVFilter stage, then make the root logger with either no bound values or
the module field, and return the logger together with Some(guard) —
unconditionally. -/
def build_with_drain (drain : DrainTree) (channel_size : Nat)
    (kv_filter_config : KVFilterConfig) (source_location : SourceLocation) :
    Logger × Option AsyncGuard :=
  let drain1 := DrainTree.Async channel_size drain
  let guard := AsyncGuard.guard
  let kv_filter := DrainTree.KVFilter kv_filter_config drain1
  let logger :=
    match source_location with
    | .None => Logger.mk kv_filter []
    | .ModuleAndLine => Logger.mk kv_filter [("module", BoundValue.FnValue module_and_line)]
  (logger, some guard)

/-- TerminalLoggerBuilder from src/terminal.rs. -/
structure TerminalLoggerBuilder where
  format : Format
  source_location : SourceLocation
  timezone : TimeZone
  destination : Destination
  channel_size : Nat
  evaluation_order : EvaluationOrder
  filter_config : FilterConfig
deriving Repr

/-- TerminalLoggerBuilder::new from src/terminal.rs: defaults everywhere
and channel_size 1024. -/
def TerminalLoggerBuilder.new : TerminalLoggerBuilder where
  format := Format.default
  source_location := SourceLocation.default
  timezone := TimeZone.default
  destination := Destination.default
  channel_size := 1024
  evaluation_order := EvaluationOrder.default
  filter_config := FilterConfig.default

/-- The private TerminalLoggerBuilder::build_with_drain from
src/terminal.rs: async stage inside with the builder's channel size, then
the KVFilter stage built from the compiled filter config and the evaluation
order, then the root logger with the module field iff the source location
policy is ModuleAndLine.  No guard is produced (plain Async::build). -/
def TerminalLoggerBuilder.build_with_drain (b : TerminalLoggerBuilder)
    (drain : DrainTree) : Logger :=
  let drain1 := DrainTree.Async b.channel_size drain
  let filter_spec := b.filter_config.to_filter_spec
  let kv_filter := DrainTree.KVFilter ⟨filter_spec, b.evaluation_order⟩ drain1
  match b.source_location with
  | .None => Logger.mk kv_filter []
  | .ModuleAndLine => Logger.mk kv_filter [("module", BoundValue.FnValue module_and_line)]

/-- impl Build for TerminalLoggerBuilder, src/terminal.rs: resolve the
decorator for the destination (term_avail is the environment's terminal
capability), pick the timestamp function, build the Full or Compact
formatting drain over the decorator, run it through build_with_drain, and
return Ok of the logger.  No failing operation occurs on this path. -/
def TerminalLoggerBuilder.build (term_avail : Destination → Bool)
    (b : TerminalLoggerBuilder) : Result Logger :=
  let decorator := b.destination.to_decorator term_avail
  let timestamp := timezone_to_timestamp_fn b.timezone
  let logger :=
    match b.format with
    | .Full => b.build_with_drain (DrainTree.Formatted Format.Full decorator timestamp)
    | .Compact => b.build_with_drain (DrainTree.Formatted Format.Compact decorator timestamp)
  .ok logger

/-- NullLoggerBuilder from src/null.rs (a unit struct). -/
structure NullLoggerBuilder where
deriving DecidableEq, Repr

/-- impl Build for NullLoggerBuilder, src/null.rs: always Ok of the root
logger over the Discard drain with no bound values, and no guard. -/
def NullLoggerBuilder.build (_ : NullLoggerBuilder) : Result (Logger × Option AsyncGuard) :=
  .ok (Logger.mk DrainTree.Discard [], none)

/-- NullLoggerConfig from src/null.rs (an empty struct). -/
structure NullLoggerConfig where
deriving DecidableEq, Repr

/-- impl Config for NullLoggerConfig, src/null.rs: always Ok of the unit
builder. -/
def NullLoggerConfig.try_to_builder (_ : NullLoggerConfig) : Result NullLoggerBuilder :=
  .ok ⟨⟩

/-- TerminalLoggerConfig from src/terminal.rs. -/
structure TerminalLoggerConfig where
  format : Format
  source_location : SourceLocation
  timezone : TimeZone
  destination : Destination
  channel_size : Nat
  evaluation_order : EvaluationOrder
  filter_config : FilterConfig
deriving Repr

/-- The serde default function for the channel_size field of
TerminalLoggerConfig, src/terminal.rs (used only when deserializing a
document in which the field is absent). -/
def default_channel_size : Nat := 1024

/-- The derived Default of TerminalLoggerConfig (src/terminal.rs has
derive(Default) on the struct): every field takes its own type's Default,
so channel_size is usize's default 0 — the serde attribute
default_channel_size plays no part here. -/
def TerminalLoggerConfig.default : TerminalLoggerConfig where
  format := Format.default
  source_location := SourceLocation.default
  timezone := TimeZone.default
  destination := Destination.default
  channel_size := 0
  evaluation_order := EvaluationOrder.default
  filter_config := FilterConfig.default

/-- impl Config for TerminalLoggerConfig, src/terminal.rs: start from
TerminalLoggerBuilder::new and copy every configuration field into the
builder, always returning Ok. -/
def TerminalLoggerConfig.try_to_builder (c : TerminalLoggerConfig) :
    Result TerminalLoggerBuilder :=
  let builder := TerminalLoggerBuilder.new
  let builder := { builder with format := c.format }
  let builder := { builder with source_location := c.source_location }
  let builder := { builder with timezone := c.timezone }
  let builder := { builder with destination := c.destination }
  let builder := { builder with channel_size := c.channel_size }
  let builder := { builder with evaluation_order := c.evaluation_order }
  let builder := { builder with filter_config := c.filter_config }
  .ok builder

/-- FileLoggerConfig.  Modelled from the spec: src/file.rs is not among the
provided sources; the fields are those of the file-logger configuration
document shown in src/config.rs (format, source_location, timezone,
timestamp_template, path, channel_size, truncate, rotate_size, rotate_keep,
rotate_compress, evaluation_order, filter_config). -/
structure FileLoggerConfig where
  format : Format
  source_location : SourceLocation
  timezone : TimeZone
  timestamp_template : String
  path : String
  channel_size : Nat
  truncate : Bool
  rotate_size : Nat
  rotate_keep : Nat
  rotate_compress : Bool
  evaluation_order : EvaluationOrder
  filter_config : FilterConfig
deriving Repr

/-- LoggerConfig from src/config.rs: the closed tagged union over the
file, null and terminal configurations. -/
inductive LoggerConfig where
  | File : FileLoggerConfig → LoggerConfig
  | Null : NullLoggerConfig → LoggerConfig
  | Terminal : TerminalLoggerConfig → LoggerConfig
deriving Repr

/-- impl Default for LoggerConfig, src/config.rs: the Terminal variant of
TerminalLoggerConfig's own (derived) default. -/
def LoggerConfig.default : LoggerConfig :=
  LoggerConfig.Terminal TerminalLoggerConfig.default

/-- A format-agnostic serialized value (the data model shared by the TOML
and JSON documents of src/config.rs): strings, numbers, booleans, arrays
and objects of named fields. -/
inductive JValue where
  | str : String → JValue
  | num : Nat → JValue
  | bool : Bool → JValue
  | arr : List JValue → JValue
  | obj : List (String × JValue) → JValue
deriving Repr

/-- Field lookup in a serialized object: the value of the first field with
the given name. -/
def jlookup (fields : List (String × JValue)) (k : String) : Option JValue :=
  (fields.find? (fun p => p.1 == k)).map (fun p => p.2)

/-- Serialization of Severity: serde's rename_all = lowercase on
src/types.rs gives the lowercase variant names. -/
def Severity.toJson (s : Severity) : JValue :=
  match s with
  | .Trace => .str "trace"
  | .Debug => .str "debug"
  | .Info => .str "info"
  | .Warning => .str "warning"
  | .Error => .str "error"
  | .Critical => .str "critical"

/-- Deserialization of Severity from its lowercase literal. -/
def Severity.fromJson : JValue → Option Severity
  | .str "trace" => some .Trace
  | .str "debug" => some .Debug
  | .str "info" => some .Info
  | .str "warning" => some .Warning
  | .str "error" => some .Error
  | .str "critical" => some .Critical
  | _ => none

/-- Serialization of Format (rename_all = lowercase, src/types.rs). -/
def Format.toJson : Format → JValue
  | .Full => .str "full"
  | .Compact => .str "compact"

/-- Deserialization of Format. -/
def Format.fromJson : JValue → Option Format
  | .str "full" => some .Full
  | .str "compact" => some .Compact
  | _ => none

/-- Serialization of TimeZone (rename_all = lowercase, src/types.rs). -/
def TimeZone.toJson : TimeZone → JValue
  | .Utc => .str "utc"
  | .Local => .str "local"

/-- Deserialization of TimeZone. -/
def TimeZone.fromJson : JValue → Option TimeZone
  | .str "utc" => some .Utc
  | .str "local" => some .Local
  | _ => none

/-- Serialization of SourceLocation (rename_all = snake_case,
src/types.rs). -/
def SourceLocation.toJson : SourceLocation → JValue
  | .None => .str "none"
  | .ModuleAndLine => .str "module_and_line"

/-- Deserialization of SourceLocation. -/
def SourceLocation.fromJson : JValue → Option SourceLocation
  | .str "none" => some .None
  | .str "module_and_line" => some .ModuleAndLine
  | _ => none

/-- Serialization of Destination (rename_all = lowercase,
src/terminal.rs). -/
def Destination.toJson : Destination → JValue
  | .Stdout => .str "stdout"
  | .Stderr => .str "stderr"

/-- Deserialization of Destination. -/
def Destination.fromJson : JValue → Option Destination
  | .str "stdout" => some .Stdout
  | .str "stderr" => some .Stderr
  | _ => none

/-- Serialization of the external EvaluationOrder: the variant names as
they appear in the configuration examples of src/config.rs. -/
def EvaluationOrder.toJson : EvaluationOrder → JValue
  | .LoggerAndMessage => .str "LoggerAndMessage"
  | .MessageAndLogger => .str "MessageAndLogger"

/-- Deserialization of the external EvaluationOrder. -/
def EvaluationOrder.fromJson : JValue → Option EvaluationOrder
  | .str "LoggerAndMessage" => some .LoggerAndMessage
  | .str "MessageAndLogger" => some .MessageAndLogger
  | _ => none

/-- Deserialization of a number. -/
def natFromJson : JValue → Option Nat
  | .num n => some n
  | _ => none

/-- Deserialization of a boolean. -/
def boolFromJson : JValue → Option Bool
  | .bool b => some b
  | _ => none

/-- Deserialization of a string. -/
def strFromJson : JValue → Option String
  | .str s => some s
  | _ => none

/-- Serialization of one (key, value) string pair: serde serializes a Rust
tuple as a two-element array. -/
def pairToJson (kv : String × String) : JValue :=
  .arr [.str kv.1, .str kv.2]

/-- Deserialization of one (key, value) string pair. -/
def pairFromJson : JValue → Option (String × String)
  | .arr [.str k, .str v] => some (k, v)
  | _ => none

/-- Deserialization of a list of (key, value) pairs. -/
def pairsFromJson : JValue → Option (List (String × String))
  | .arr items => items.mapM pairFromJson
  | _ => none

mutual

/-- Serialization of the external FilterSpec.  Modelled from the spec: the
crate serializes the expression tree with one externally tagged variant per
node (the Custom examples of src/types.rs note it is serializable). -/
def FilterSpec.toJson : FilterSpec → JValue
  | .LevelAtLeast l =>
      .obj [("LevelAtLeast", .str (match l with
        | .Trace => "trace"
        | .Debug => "debug"
        | .Info => "info"
        | .Warning => "warning"
        | .Error => "error"
        | .Critical => "critical"))]
  | .MatchKeyValue k v => .obj [("MatchKeyValue", .arr [.str k, .str v])]
  | .And a b => .obj [("And", .arr [a.toJson, b.toJson])]
  | .Or a b => .obj [("Or", .arr [a.toJson, b.toJson])]
  | .Not a => .obj [("Not", a.toJson)]
  | .AllOf xs => .obj [("AllOf", .arr (FilterSpec.listToJson xs))]
  | .AnyOf xs => .obj [("AnyOf", .arr (FilterSpec.listToJson xs))]

/-- Serialization of a list of filter specs. -/
def FilterSpec.listToJson : List FilterSpec → List JValue
  | [] => []
  | x :: xs => x.toJson :: FilterSpec.listToJson xs

end

/-- Deserialization of a slog level from its lowercase literal. -/
def Level.fromJson : JValue → Option Level
  | .str "trace" => some .Trace
  | .str "debug" => some .Debug
  | .str "info" => some .Info
  | .str "warning" => some .Warning
  | .str "error" => some .Error
  | .str "critical" => some .Critical
  | _ => none

mutual

/-- Deserialization of the external FilterSpec, inverse of the
serialization above. -/
def FilterSpec.fromJson : JValue → Option FilterSpec
  | .obj [("LevelAtLeast", v)] => (Level.fromJson v).map FilterSpec.LevelAtLeast
  | .obj [("MatchKeyValue", .arr [.str k, .str v])] => some (FilterSpec.MatchKeyValue k v)
  | .obj [("And", .arr [a, b])] =>
      match FilterSpec.fromJson a, FilterSpec.fromJson b with
      | some fa, some fb => some (FilterSpec.And fa fb)
      | _, _ => none
  | .obj [("Or", .arr [a, b])] =>
      match FilterSpec.fromJson a, FilterSpec.fromJson b with
      | some fa, some fb => some (FilterSpec.Or fa fb)
      | _, _ => none
  | .obj [("Not", a)] => (FilterSpec.fromJson a).map FilterSpec.Not
  | .obj [("AllOf", .arr xs)] => (FilterSpec.listFromJson xs).map FilterSpec.AllOf
  | .obj [("AnyOf", .arr xs)] => (FilterSpec.listFromJson xs).map FilterSpec.AnyOf
  | _ => none

/-- Deserialization of a list of filter specs. -/
def FilterSpec.listFromJson : List JValue → Option (List FilterSpec)
  | [] => some []
  | x :: xs =>
      match FilterSpec.fromJson x, FilterSpec.listFromJson xs with
      | some f, some fs => some (f :: fs)
      | _, _ => none

end

/-- Serialization of PassIfMatch (derived Serialize, src/types.rs): both
fields, in declaration order. -/
def PassIfMatch.toJson (p : PassIfMatch) : JValue :=
  .obj [("keys_and_values", .arr (p.keys_and_values.map pairToJson)),
        ("severity_at_least", p.severity_at_least.toJson)]

/-- Deserialization of PassIfMatch (derived Deserialize, src/types.rs):
both fields looked up by name, no defaults. -/
def PassIfMatch.fromJson : JValue → Option PassIfMatch
  | .obj fields =>
      match jlookup fields "keys_and_values", jlookup fields "severity_at_least" with
      | some kvj, some sj =>
          match pairsFromJson kvj, Severity.fromJson sj with
          | some kvs, some s => some ⟨kvs, s⟩
          | _, _ => none
      | _, _ => none
  | _ => none

/-- Deserialization of a list of PassIfMatch values. -/
def passesFromJson : JValue → Option (List PassIfMatch)
  | .arr items => items.mapM PassIfMatch.fromJson
  | _ => none

/-- Serialization of FilterConfig (src/types.rs): internally tagged with
the field "type" holding the variant name, the variant's own fields beside
it. -/
def FilterConfig.toJson : FilterConfig → JValue
  | .PassOnAnyOf always_pass_on_severity_at_least passes =>
      .obj [("type", .str "PassOnAnyOf"),
            ("always_pass_on_severity_at_least", always_pass_on_severity_at_least.toJson),
            ("passes", .arr (passes.map PassIfMatch.toJson))]
  | .Custom filter_spec =>
      .obj [("type", .str "Custom"),
            ("filter_spec", filter_spec.toJson)]

/-- Deserialization of FilterConfig: dispatch on the "type" tag, then read
the variant's fields by name. -/
def FilterConfig.fromJson : JValue → Option FilterConfig
  | .obj fields =>
      match jlookup fields "type" with
      | some (.str "PassOnAnyOf") =>
          match jlookup fields "always_pass_on_severity_at_least",
                jlookup fields "passes" with
          | some sj, some pj =>
              match Severity.fromJson sj, passesFromJson pj with
              | some s, some ps => some (.PassOnAnyOf s ps)
              | _, _ => none
          | _, _ => none
      | some (.str "Custom") =>
          match jlookup fields "filter_spec" with
          | some fj => (FilterSpec.fromJson fj).map FilterConfig.Custom
          | none => none
      | _ => none
  | _ => none

/-- Serialization of TerminalLoggerConfig (derived Serialize,
src/terminal.rs): every field, in declaration order. -/
def TerminalLoggerConfig.toJson (c : TerminalLoggerConfig) : List (String × JValue) :=
  [("format", c.format.toJson),
   ("source_location", c.source_location.toJson),
   ("timezone", c.timezone.toJson),
   ("destination", c.destination.toJson),
   ("channel_size", .num c.channel_size),
   ("evaluation_order", c.evaluation_order.toJson),
   ("filter_config", c.filter_config.toJson)]

/-- Deserialization of TerminalLoggerConfig from an object's fields:
each field looked up by name; the serde defaults of src/terminal.rs apply
when a field is absent (type defaults everywhere, default_channel_size for
channel_size); filter_config has no default and is required. -/
def TerminalLoggerConfig.fromFields (fields : List (String × JValue)) :
    Option TerminalLoggerConfig :=
  let fmt := match jlookup fields "format" with
    | some v => Format.fromJson v
    | none => some Format.default
  let sl := match jlookup fields "source_location" with
    | some v => SourceLocation.fromJson v
    | none => some SourceLocation.default
  let tz := match jlookup fields "timezone" with
    | some v => TimeZone.fromJson v
    | none => some TimeZone.default
  let dst := match jlookup fields "destination" with
    | some v => Destination.fromJson v
    | none => some Destination.default
  let cs := match jlookup fields "channel_size" with
    | some v => natFromJson v
    | none => some default_channel_size
  let eo := match jlookup fields "evaluation_order" with
    | some v => EvaluationOrder.fromJson v
    | none => some EvaluationOrder.default
  let fc := match jlookup fields "filter_config" with
    | some v => FilterConfig.fromJson v
    | none => none
  match fmt, sl, tz, dst, cs, eo, fc with
  | some a, some b, some c, some d, some e, some f, some g =>
      some ⟨a, b, c, d, e, f, g⟩
  | _, _, _, _, _, _, _ => none

/-- Serialization of FileLoggerConfig.  Modelled from the spec: src/file.rs
is not among the provided sources; fields follow the file-logger document
of src/config.rs, in that order. -/
def FileLoggerConfig.toJson (c : FileLoggerConfig) : List (String × JValue) :=
  [("format", c.format.toJson),
   ("source_location", c.source_location.toJson),
   ("timezone", c.timezone.toJson),
   ("timestamp_template", .str c.timestamp_template),
   ("path", .str c.path),
   ("channel_size", .num c.channel_size),
   ("truncate", .bool c.truncate),
   ("rotate_size", .num c.rotate_size),
   ("rotate_keep", .num c.rotate_keep),
   ("rotate_compress", .bool c.rotate_compress),
   ("evaluation_order", c.evaluation_order.toJson),
   ("filter_config", c.filter_config.toJson)]

/-- Deserialization of FileLoggerConfig from an object's fields.  Modelled
from the spec (src/file.rs missing): each field looked up by name. -/
def FileLoggerConfig.fromFields (fields : List (String × JValue)) :
    Option FileLoggerConfig :=
  match jlookup fields "format", jlookup fields "source_location",
        jlookup fields "timezone", jlookup fields "timestamp_template",
        jlookup fields "path", jlookup fields "channel_size" with
  | some fj, some slj, some tzj, some ttj, some pj, some csj =>
      match jlookup fields "truncate", jlookup fields "rotate_size",
            jlookup fields "rotate_keep", jlookup fields "rotate_compress",
            jlookup fields "evaluation_order", jlookup fields "filter_config" with
      | some trj, some rsj, some rkj, some rcj, some eoj, some fcj =>
          match Format.fromJson fj, SourceLocation.fromJson slj,
                TimeZone.fromJson tzj, strFromJson ttj, strFromJson pj,
                natFromJson csj with
          | some a, some b, some c, some d, some e, some f =>
              match boolFromJson trj, natFromJson rsj, natFromJson rkj,
                    boolFromJson rcj, EvaluationOrder.fromJson eoj,
                    FilterConfig.fromJson fcj with
              | some g, some h, some i, some j, some k, some l =>
                  some ⟨a, b, c, d, e, f, g, h, i, j, k, l⟩
              | _, _, _, _, _, _ => none
          | _, _, _, _, _, _ => none
      | _, _, _, _, _, _ => none
  | _, _, _, _, _, _ => none

/-- Serialization of LoggerConfig (src/config.rs): internally tagged with
the field "type" whose value is the lowercase variant name (rename_all =
lowercase), the variant's own fields beside it. -/
def LoggerConfig.toJson : LoggerConfig → JValue
  | .File c => .obj (("type", .str "file") :: c.toJson)
  | .Null _ => .obj [("type", .str "null")]
  | .Terminal c => .obj (("type", .str "terminal") :: c.toJson)

/-- Deserialization of LoggerConfig: dispatch on the "type" tag, then read
the chosen variant's configuration from the same object. -/
def LoggerConfig.fromJson : JValue → Option LoggerConfig
  | .obj fields =>
      match jlookup fields "type" with
      | some (.str "file") => (FileLoggerConfig.fromFields fields).map LoggerConfig.File
      | some (.str "null") => some (.Null ⟨⟩)
      | some (.str "terminal") =>
          (TerminalLoggerConfig.fromFields fields).map LoggerConfig.Terminal
      | _ => none
  | _ => none

theorem as_level_toNat (s : Severity) : s.as_level.toNat = s.toNat := by
  cases s <;> rfl

theorem evalAll_map_match_kv (xs : List (String × String)) (lvl : Level)
    (kvs : List (String × String)) :
    evalAll (xs.map (fun kv => FilterSpec.match_kv kv.1 kv.2)) lvl kvs =
      xs.all (fun kv => kvs.contains kv) := by
  induction xs with
  | nil => rfl
  | cons x xs ih =>
      simp only [List.map_cons, evalAll, List.all_cons, ih]
      rfl

theorem terminal_bwd_drain (b : TerminalLoggerBuilder) (d : DrainTree) :
    (b.build_with_drain d).drain =
      DrainTree.KVFilter ⟨b.filter_config.to_filter_spec, b.evaluation_order⟩
        (DrainTree.Async b.channel_size d) := by
  rcases b with ⟨fmt, sl, tz, dst, cs, eo, fc⟩
  cases sl <;> rfl

theorem terminal_build_unfold (f : Destination → Bool) (b : TerminalLoggerBuilder) :
    TerminalLoggerBuilder.build f b =
      .ok (b.build_with_drain
        (DrainTree.Formatted b.format (b.destination.to_decorator f)
          (timezone_to_timestamp_fn b.timezone))) := by
  rcases b with ⟨fmt, sl, tz, dst, cs, eo, fc⟩
  cases fmt <;> rfl

/-- C3: FilterConfig::to_filter_spec compiles PassOnAnyOf to
LevelAtLeast(threshold) OR AnyOf(the compiled passes); with threshold Info
and one PassIfMatch requiring at least Debug on (key1, value1), a Debug
record carrying key1=value1 passes even though Debug is below Info, and a
Debug record without that pair is rejected. -/
theorem pass_on_any_of_compiles_to_or :
    (∀ (t : Severity) (passes : List PassIfMatch),
      (FilterConfig.PassOnAnyOf t passes).to_filter_spec =
        (FilterSpec.LevelAtLeast t.as_level).or
          (FilterSpec.any_of (passes.map PassIfMatch.to_filter_spec))) ∧
    evaluate (FilterConfig.PassOnAnyOf Severity.Info
        [⟨[("key1", "value1")], Severity.Debug⟩]).to_filter_spec
      Level.Debug [("key1", "value1")] = true ∧
    evaluate (FilterConfig.PassOnAnyOf Severity.Info
        [⟨[("key1", "value1")], Severity.Debug⟩]).to_filter_spec
      Level.Debug [] = false := by
  refine ⟨fun t passes => rfl, ?_, ?_⟩ <;> rfl

/-- C4: PassIfMatch::to_filter_spec is the conjunction of LevelAtLeast of
the minimum severity with the match of every listed pair, and the compiled
spec accepts exactly the records whose severity is at least that minimum
and that carry all listed pairs. -/
theorem pass_if_match_filter_characterization (p : PassIfMatch) (lvl : Level)
    (kvs : List (String × String)) :
    p.to_filter_spec =
      (FilterSpec.LevelAtLeast p.severity_at_least.as_level).and
        (FilterSpec.all_of
          (p.keys_and_values.map (fun kv => FilterSpec.match_kv kv.1 kv.2))) ∧
    evaluate p.to_filter_spec lvl kvs =
      (decide (p.severity_at_least.toNat ≤ lvl.toNat) &&
        p.keys_and_values.all (fun kv => kvs.contains kv)) := by
  refine ⟨rfl, ?_⟩
  show (Nat.ble p.severity_at_least.as_level.toNat lvl.toNat &&
      evalAll (p.keys_and_values.map (fun kv => FilterSpec.match_kv kv.1 kv.2)) lvl kvs) = _
  rw [evalAll_map_match_kv, as_level_toNat]
  have hb : Nat.ble p.severity_at_least.toNat lvl.toNat =
      decide (p.severity_at_least.toNat ≤ lvl.toNat) := by
    by_cases h : p.severity_at_least.toNat ≤ lvl.toNat <;>
      simp [h, Bool.eq_false_iff, ne_eq, Nat.ble_eq]
  rw [hb]

/-- C5: the composed drain stages are layered sink innermost, then the
asynchronous stage, then the key-value filter outside it, with the
source-location annotation at the logger root: ModuleAndLine binds a
"module" field computing the call site's module and line, None binds
nothing; this holds for the generic pipeline of src/misc.rs and for the
terminal builder's pipeline of src/terminal.rs. -/
theorem pipeline_layering_order :
    (∀ (sink : DrainTree) (cs : Nat) (cfg : KVFilterConfig),
      build_with_drain sink cs cfg SourceLocation.ModuleAndLine =
        (Logger.mk (DrainTree.KVFilter cfg (DrainTree.Async cs sink))
          [("module", BoundValue.FnValue module_and_line)], some AsyncGuard.guard) ∧
      build_with_drain sink cs cfg SourceLocation.None =
        (Logger.mk (DrainTree.KVFilter cfg (DrainTree.Async cs sink)) [],
          some AsyncGuard.guard)) ∧
    (∀ (b : TerminalLoggerBuilder) (sink : DrainTree),
      b.build_with_drain sink =
        Logger.mk
          (DrainTree.KVFilter ⟨b.filter_config.to_filter_spec, b.evaluation_order⟩
            (DrainTree.Async b.channel_size sink))
          (match b.source_location with
           | .None => []
           | .ModuleAndLine => [("module", BoundValue.FnValue module_and_line)])) ∧
    (∀ r : Record, module_and_line r = r.module ++ ":" ++ toString r.line) := by
  refine ⟨fun sink cs cfg => ⟨rfl, rfl⟩, ?_, fun r => rfl⟩
  intro b sink
  rcases b with ⟨fmt, sl, tz, dst, cs, eo, fc⟩
  cases sl <;> rfl

/-- C6: Destination::to_decorator resolves to a decorator writing to the
requested stream in every case; when terminal-capability acquisition fails
for that stream it falls back to the plain decorator of the very same
stream, and no failure is surfaced (the function is total). -/
theorem destination_fallback_same_stream (f : Destination → Bool) (d : Destination) :
    (Destination.to_decorator f d).stream = d ∧
    (f d = false →
      Destination.to_decorator f d =
        (match d with
         | .Stdout => Decorator.PlainStdout
         | .Stderr => Decorator.PlainStderr)) := by
  cases d <;> by_cases h : f Destination.Stdout <;> by_cases h2 : f Destination.Stderr <;>
    simp [Destination.to_decorator, Decorator.stream, h, h2]

theorem destination_fallback_same_stream_witness :
    (Destination.to_decorator (fun _ => false) Destination.Stdout).stream =
      Destination.Stdout ∧
    Destination.to_decorator (fun _ => false) Destination.Stdout =
      Decorator.PlainStdout ∧
    Destination.to_decorator (fun _ => false) Destination.Stderr =
      Decorator.PlainStderr := by
  refine ⟨(destination_fallback_same_stream (fun _ => false) Destination.Stdout).1,
    (destination_fallback_same_stream (fun _ => false) Destination.Stdout).2 rfl,
    (destination_fallback_same_stream (fun _ => false) Destination.Stderr).2 rfl⟩

/-- C7: the null logger path never fails: NullLoggerConfig::try_to_builder
and NullLoggerBuilder::build both return Ok on every input, the built
logger's drain is Discard so no record ever reaches a sink, and the guard
component is always None (no asynchronous worker). -/
theorem null_logger_never_fails (c : NullLoggerConfig) (b : NullLoggerBuilder)
    (lvl : Level) (kvs : List (String × String)) :
    c.try_to_builder = .ok ⟨⟩ ∧
    b.build = .ok (Logger.mk DrainTree.Discard [], none) ∧
    (Logger.mk DrainTree.Discard []).drain.emits lvl kvs = false :=
  ⟨rfl, rfl, rfl⟩

/-- C10: TerminalLoggerBuilder::build succeeds for every builder state and
every terminal-capability environment, returning exactly the composed
pipeline over the resolved decorator, and TerminalLoggerConfig's
try_to_builder always returns Ok of the builder holding a copy of every
configuration field. -/
theorem terminal_build_total (f : Destination → Bool) (b : TerminalLoggerBuilder)
    (c : TerminalLoggerConfig) :
    TerminalLoggerBuilder.build f b =
      .ok (b.build_with_drain
        (DrainTree.Formatted b.format (b.destination.to_decorator f)
          (timezone_to_timestamp_fn b.timezone))) ∧
    (TerminalLoggerBuilder.build f b).isOk = true ∧
    c.try_to_builder =
      .ok ⟨c.format, c.source_location, c.timezone, c.destination,
           c.channel_size, c.evaluation_order, c.filter_config⟩ := by
  refine ⟨terminal_build_unfold f b, ?_, rfl⟩
  rw [terminal_build_unfold f b]
  rfl

/-- C1 (counterexample): at channel_size 0 the generic pipeline of
src/misc.rs still returns a guard (Some, not None) and its drain chain
still contains the asynchronous stage, so composing with channel_size 0 is
neither synchronous nor guard-free. -/
theorem build_with_drain_zero_returns_guard :
    (build_with_drain DrainTree.sink 0
        ⟨FilterSpec.LevelAtLeast Level.Info, EvaluationOrder.LoggerAndMessage⟩
        SourceLocation.None).2 = some AsyncGuard.guard ∧
    (build_with_drain DrainTree.sink 0
        ⟨FilterSpec.LevelAtLeast Level.Info, EvaluationOrder.LoggerAndMessage⟩
        SourceLocation.None).2 ≠ none ∧
    (build_with_drain DrainTree.sink 0
        ⟨FilterSpec.LevelAtLeast Level.Info, EvaluationOrder.LoggerAndMessage⟩
        SourceLocation.None).1.drain =
      DrainTree.KVFilter
        ⟨FilterSpec.LevelAtLeast Level.Info, EvaluationOrder.LoggerAndMessage⟩
        (DrainTree.Async 0 DrainTree.sink) := by
  refine ⟨rfl, ?_, rfl⟩
  simp [build_with_drain]

/-- C1 (amended): for every sink, kv-filter configuration, source-location
policy and channel size — including 0 — the composed pipeline contains the
asynchronous stage with the given channel size, and src/misc.rs's
build_with_drain unconditionally returns Some guard; the terminal builder
of src/terminal.rs likewise always inserts the asynchronous stage and its
build returns a logger alone, never any guard. -/
theorem build_with_drain_always_async_with_guard (sink : DrainTree) (cs : Nat)
    (cfg : KVFilterConfig) (sl : SourceLocation) (f : Destination → Bool)
    (b : TerminalLoggerBuilder) :
    (build_with_drain sink cs cfg sl).2 = some AsyncGuard.guard ∧
    (build_with_drain sink cs cfg sl).1.drain =
      DrainTree.KVFilter cfg (DrainTree.Async cs sink) ∧
    TerminalLoggerBuilder.build f b =
      .ok (b.build_with_drain
        (DrainTree.Formatted b.format (b.destination.to_decorator f)
          (timezone_to_timestamp_fn b.timezone))) ∧
    (b.build_with_drain
        (DrainTree.Formatted b.format (b.destination.to_decorator f)
          (timezone_to_timestamp_fn b.timezone))).drain =
      DrainTree.KVFilter ⟨b.filter_config.to_filter_spec, b.evaluation_order⟩
        (DrainTree.Async b.channel_size
          (DrainTree.Formatted b.format (b.destination.to_decorator f)
            (timezone_to_timestamp_fn b.timezone))) := by
  refine ⟨?_, ?_, terminal_build_unfold f b, terminal_bwd_drain b _⟩
  · cases sl <;> rfl
  · cases sl <;> rfl

/-- C2 (counterexample): LoggerConfig::default() is the Terminal variant of
TerminalLoggerConfig's derived Default, whose channel_size is 0, not the
documented 1024. -/
theorem default_config_channel_size_zero :
    LoggerConfig.default = LoggerConfig.Terminal TerminalLoggerConfig.default ∧
    TerminalLoggerConfig.default.channel_size = 0 ∧
    TerminalLoggerConfig.default.channel_size ≠ 1024 :=
  ⟨rfl, rfl, by decide⟩

/-- C2 (amended): LoggerConfig::default() equals the Terminal variant with
format Full, source_location ModuleAndLine, timezone Local, destination
Stdout, evaluation_order LoggerAndMessage, filter_config PassOnAnyOf with
threshold Info and no passes, and channel_size 0 — the derived Default of
usize; 1024 is only the serde deserialization default (the
default_channel_size function), applied when the field is absent from a
configuration document. -/
theorem logger_config_default_fields :
    LoggerConfig.default =
      LoggerConfig.Terminal
        ⟨Format.Full, SourceLocation.ModuleAndLine, TimeZone.Local,
         Destination.Stdout, 0, EvaluationOrder.LoggerAndMessage,
         FilterConfig.PassOnAnyOf Severity.Info []⟩ ∧
    default_channel_size = 1024 ∧
    TerminalLoggerConfig.fromFields [("filter_config", FilterConfig.default.toJson)] =
      some ⟨Format.Full, SourceLocation.ModuleAndLine, TimeZone.Local,
            Destination.Stdout, 1024, EvaluationOrder.LoggerAndMessage,
            FilterConfig.PassOnAnyOf Severity.Info []⟩ :=
  ⟨rfl, rfl, rfl⟩

theorem flatten_map_rustDebugChar (l : List Char) (h : ∀ c ∈ l, rustDebugChar c = [c]) :
    (l.map rustDebugChar).flatten = l := by
  induction l with
  | nil => rfl
  | cons c cs ih =>
      simp only [List.map_cons, List.flatten_cons, h c (List.mem_cons_self c cs)]
      rw [ih (fun x hx => h x (List.mem_cons_of_mem c hx))]
      rfl

theorem rustDebugStr_plain (s : String) (h : ∀ c ∈ s.toList, rustDebugChar c = [c]) :
    rustDebugStr s = "\"" ++ s ++ "\"" := by
  unfold rustDebugStr
  rw [flatten_map_rustDebugChar s.toList h]
  rfl

theorem containsSubstr_of_plain (pre s : String)
    (h : ∀ c ∈ s.toList, rustDebugChar c = [c]) :
    containsSubstr (pre ++ rustDebugStr s) s = true := by
  rw [rustDebugStr_plain s h]
  unfold containsSubstr
  apply List.any_eq_true.mpr
  refine ⟨pre.toList.length + 1, ?_, ?_⟩
  · apply List.mem_range.mpr
    simp [String.toList, String.data_append]
  · have hsplit : (pre ++ ("\"" ++ s ++ "\"")).toList =
        (pre.toList ++ ['"']) ++ (s.toList ++ ['"']) := by
      simp [String.toList, String.data_append]
    rw [hsplit]
    have hlen : (pre.toList ++ ['"']).length = pre.toList.length + 1 := by
      simp
    rw [List.drop_left' hlen, List.take_left' rfl]
    exact beq_self_eq_true s.toList

/-- C8 (counterexample): for the unrecognized severity literal consisting
of the three characters a, double quote, b, parsing fails with an Invalid
error as claimed, but the message cites the Debug-escaped form of the
literal, so it does not contain the offending literal verbatim. -/
theorem severity_parse_message_not_verbatim :
    Severity.from_str "a\"b" =
      .error ⟨ErrorKind.Invalid, "Undefined severity: " ++ rustDebugStr "a\"b"⟩ ∧
    containsSubstr ("Undefined severity: " ++ rustDebugStr "a\"b") "a\"b" = false := by
  exact ⟨rfl, by decide⟩

/-- C8 (amended): for each of Severity, Format, TimeZone and
SourceLocation, parsing an unrecognized literal fails with an Invalid error
whose message cites the literal in Rust's Debug-quoted form — containing
the literal verbatim whenever the literal has no character that Debug
formatting escapes — and the canonical lowercase (snake_case for
SourceLocation) literal of every variant parses to that variant. -/
theorem parse_invalid_cites_literal :
    (∀ s : String,
      s ∉ (["trace", "debug", "info", "warning", "error", "critical"] : List String) →
      Severity.from_str s =
        .error ⟨ErrorKind.Invalid, "Undefined severity: " ++ rustDebugStr s⟩ ∧
      ((∀ c ∈ s.toList, rustDebugChar c = [c]) →
        containsSubstr ("Undefined severity: " ++ rustDebugStr s) s = true)) ∧
    (∀ s : String, s ∉ (["full", "compact"] : List String) →
      Format.from_str s =
        .error ⟨ErrorKind.Invalid, "Undefined log format: " ++ rustDebugStr s⟩) ∧
    (∀ s : String, s ∉ (["utc", "local"] : List String) →
      TimeZone.from_str s =
        .error ⟨ErrorKind.Invalid, "Undefined time zone: " ++ rustDebugStr s⟩) ∧
    (∀ s : String, s ∉ (["none", "module_and_line"] : List String) →
      SourceLocation.from_str s =
        .error ⟨ErrorKind.Invalid,
          "Undefined source code location: " ++ rustDebugStr s⟩) ∧
    (Severity.from_str "trace" = .ok Severity.Trace ∧
     Severity.from_str "debug" = .ok Severity.Debug ∧
     Severity.from_str "info" = .ok Severity.Info ∧
     Severity.from_str "warning" = .ok Severity.Warning ∧
     Severity.from_str "error" = .ok Severity.Error ∧
     Severity.from_str "critical" = .ok Severity.Critical) ∧
    (Format.from_str "full" = .ok Format.Full ∧
     Format.from_str "compact" = .ok Format.Compact) ∧
    (TimeZone.from_str "utc" = .ok TimeZone.Utc ∧
     TimeZone.from_str "local" = .ok TimeZone.Local) ∧
    (SourceLocation.from_str "none" = .ok SourceLocation.None ∧
     SourceLocation.from_str "module_and_line" = .ok SourceLocation.ModuleAndLine) := by
  refine ⟨?_, ?_, ?_, ?_, ⟨rfl, rfl, rfl, rfl, rfl, rfl⟩, ⟨rfl, rfl⟩, ⟨rfl, rfl⟩,
    ⟨rfl, rfl⟩⟩
  · intro s h
    simp only [List.mem_cons, List.mem_singleton, not_or] at h
    obtain ⟨h1, h2, h3, h4, h5, h6⟩ := h
    refine ⟨?_, fun hp => containsSubstr_of_plain _ s hp⟩
    simp [Severity.from_str, h1, h2, h3, h4, h5, h6]
  · intro s h
    simp only [List.mem_cons, List.mem_singleton, not_or] at h
    obtain ⟨h1, h2⟩ := h
    simp [Format.from_str, h1, h2]
  · intro s h
    simp only [List.mem_cons, List.mem_singleton, not_or] at h
    obtain ⟨h1, h2⟩ := h
    simp [TimeZone.from_str, h1, h2]
  · intro s h
    simp only [List.mem_cons, List.mem_singleton, not_or] at h
    obtain ⟨h1, h2⟩ := h
    simp [SourceLocation.from_str, h1, h2]

theorem parse_invalid_cites_literal_witness :
    Severity.from_str "bogus" =
      .error ⟨ErrorKind.Invalid, "Undefined severity: " ++ rustDebugStr "bogus"⟩ ∧
    containsSubstr ("Undefined severity: " ++ rustDebugStr "bogus") "bogus" = true ∧
    Format.from_str "bogus" =
      .error ⟨ErrorKind.Invalid, "Undefined log format: " ++ rustDebugStr "bogus"⟩ := by
  have h := parse_invalid_cites_literal
  have h1 := h.1 "bogus" (by decide)
  exact ⟨h1.1, h1.2 (by decide), h.2.1 "bogus" (by decide)⟩

theorem severity_json_roundtrip (s : Severity) :
    Severity.fromJson s.toJson = some s := by
  cases s <;> rfl

theorem format_json_roundtrip (x : Format) : Format.fromJson x.toJson = some x := by
  cases x <;> rfl

theorem timezone_json_roundtrip (x : TimeZone) :
    TimeZone.fromJson x.toJson = some x := by
  cases x <;> rfl

theorem source_location_json_roundtrip (x : SourceLocation) :
    SourceLocation.fromJson x.toJson = some x := by
  cases x <;> rfl

theorem destination_json_roundtrip (x : Destination) :
    Destination.fromJson x.toJson = some x := by
  cases x <;> rfl

theorem evaluation_order_json_roundtrip (x : EvaluationOrder) :
    EvaluationOrder.fromJson x.toJson = some x := by
  cases x <;> rfl

theorem pair_json_roundtrip (kv : String × String) :
    pairFromJson (pairToJson kv) = some kv := rfl

theorem pairs_json_roundtrip (l : List (String × String)) :
    pairsFromJson (.arr (l.map pairToJson)) = some l := by
  induction l with
  | nil => rfl
  | cons kv rest ih =>
      show List.mapM pairFromJson (pairToJson kv :: rest.map pairToJson) = some (kv :: rest)
      rw [List.mapM_cons, pair_json_roundtrip]
      have ih2 : List.mapM pairFromJson (rest.map pairToJson) = some rest := ih
      rw [ih2]
      rfl

mutual

theorem filter_spec_json_roundtrip (s : FilterSpec) :
    FilterSpec.fromJson s.toJson = some s := by
  cases s with
  | LevelAtLeast l => cases l <;> rfl
  | MatchKeyValue k v => rfl
  | And a b =>
      show (match FilterSpec.fromJson a.toJson, FilterSpec.fromJson b.toJson with
            | some fa, some fb => some (FilterSpec.And fa fb)
            | _, _ => none) = some (FilterSpec.And a b)
      rw [filter_spec_json_roundtrip a, filter_spec_json_roundtrip b]
  | Or a b =>
      show (match FilterSpec.fromJson a.toJson, FilterSpec.fromJson b.toJson with
            | some fa, some fb => some (FilterSpec.Or fa fb)
            | _, _ => none) = some (FilterSpec.Or a b)
      rw [filter_spec_json_roundtrip a, filter_spec_json_roundtrip b]
  | Not a =>
      show (FilterSpec.fromJson a.toJson).map FilterSpec.Not = some (FilterSpec.Not a)
      rw [filter_spec_json_roundtrip a]
      rfl
  | AllOf xs =>
      show (FilterSpec.listFromJson (FilterSpec.listToJson xs)).map FilterSpec.AllOf =
        some (FilterSpec.AllOf xs)
      rw [filter_spec_list_json_roundtrip xs]
      rfl
  | AnyOf xs =>
      show (FilterSpec.listFromJson (FilterSpec.listToJson xs)).map FilterSpec.AnyOf =
        some (FilterSpec.AnyOf xs)
      rw [filter_spec_list_json_roundtrip xs]
      rfl

theorem filter_spec_list_json_roundtrip (xs : List FilterSpec) :
    FilterSpec.listFromJson (FilterSpec.listToJson xs) = some xs := by
  cases xs with
  | nil => rfl
  | cons x rest =>
      show (match FilterSpec.fromJson x.toJson,
              FilterSpec.listFromJson (FilterSpec.listToJson rest) with
            | some f, some fs => some (f :: fs)
            | _, _ => none) = some (x :: rest)
      rw [filter_spec_json_roundtrip x, filter_spec_list_json_roundtrip rest]

end

theorem pass_if_match_json_roundtrip (p : PassIfMatch) :
    PassIfMatch.fromJson p.toJson = some p := by
  show (match pairsFromJson (.arr (p.keys_and_values.map pairToJson)),
          Severity.fromJson p.severity_at_least.toJson with
        | some kvs, some s => some (PassIfMatch.mk kvs s)
        | _, _ => none) = some p
  rw [pairs_json_roundtrip, severity_json_roundtrip]

theorem passes_json_roundtrip (l : List PassIfMatch) :
    passesFromJson (.arr (l.map PassIfMatch.toJson)) = some l := by
  induction l with
  | nil => rfl
  | cons p rest ih =>
      show List.mapM PassIfMatch.fromJson
          (p.toJson :: rest.map PassIfMatch.toJson) = some (p :: rest)
      rw [List.mapM_cons, pass_if_match_json_roundtrip]
      have ih2 : List.mapM PassIfMatch.fromJson (rest.map PassIfMatch.toJson) =
          some rest := ih
      rw [ih2]
      rfl

theorem filter_config_json_roundtrip (c : FilterConfig) :
    FilterConfig.fromJson c.toJson = some c := by
  cases c with
  | PassOnAnyOf t passes =>
      show (match Severity.fromJson t.toJson,
              passesFromJson (.arr (passes.map PassIfMatch.toJson)) with
            | some s, some ps => some (FilterConfig.PassOnAnyOf s ps)
            | _, _ => none) = some (FilterConfig.PassOnAnyOf t passes)
      rw [severity_json_roundtrip, passes_json_roundtrip]
  | Custom fs =>
      show (FilterSpec.fromJson fs.toJson).map FilterConfig.Custom =
        some (FilterConfig.Custom fs)
      rw [filter_spec_json_roundtrip fs]
      rfl

theorem terminal_config_json_roundtrip (c : TerminalLoggerConfig) :
    TerminalLoggerConfig.fromFields (("type", JValue.str "terminal") :: c.toJson) =
      some c := by
  show (match Format.fromJson c.format.toJson,
          SourceLocation.fromJson c.source_location.toJson,
          TimeZone.fromJson c.timezone.toJson,
          Destination.fromJson c.destination.toJson,
          natFromJson (.num c.channel_size),
          EvaluationOrder.fromJson c.evaluation_order.toJson,
          FilterConfig.fromJson c.filter_config.toJson with
        | some a, some b, some c, some d, some e, some f, some g =>
            some (TerminalLoggerConfig.mk a b c d e f g)
        | _, _, _, _, _, _, _ => none) = some c
  rw [format_json_roundtrip, source_location_json_roundtrip, timezone_json_roundtrip,
    destination_json_roundtrip, evaluation_order_json_roundtrip,
    filter_config_json_roundtrip]
  rfl

theorem file_config_json_roundtrip (c : FileLoggerConfig) :
    FileLoggerConfig.fromFields (("type", JValue.str "file") :: c.toJson) =
      some c := by
  show (match Format.fromJson c.format.toJson,
          SourceLocation.fromJson c.source_location.toJson,
          TimeZone.fromJson c.timezone.toJson,
          strFromJson (.str c.timestamp_template),
          strFromJson (.str c.path),
          natFromJson (.num c.channel_size) with
        | some a, some b, some c', some d, some e, some f =>
            (match boolFromJson (.bool c.truncate),
               natFromJson (.num c.rotate_size),
               natFromJson (.num c.rotate_keep),
               boolFromJson (.bool c.rotate_compress),
               EvaluationOrder.fromJson c.evaluation_order.toJson,
               FilterConfig.fromJson c.filter_config.toJson with
             | some g, some h, some i, some j, some k, some l =>
                 some (FileLoggerConfig.mk a b c' d e f g h i j k l)
             | _, _, _, _, _, _ => none)
        | _, _, _, _, _, _ => none) = some c
  rw [format_json_roundtrip, source_location_json_roundtrip, timezone_json_roundtrip,
    evaluation_order_json_roundtrip, filter_config_json_roundtrip]
  rfl

/-- C9: serializing any LoggerConfig value — File, Null or Terminal, with
either FilterConfig shape inside — and deserializing the result yields a
structurally equal value. -/
theorem logger_config_roundtrip (c : LoggerConfig) :
    LoggerConfig.fromJson c.toJson = some c := by
  cases c with
  | File fc =>
      show (FileLoggerConfig.fromFields
          (("type", JValue.str "file") :: fc.toJson)).map LoggerConfig.File =
        some (LoggerConfig.File fc)
      rw [file_config_json_roundtrip fc]
      rfl
  | Null nc =>
      cases nc
      rfl
  | Terminal tc =>
      show (TerminalLoggerConfig.fromFields
          (("type", JValue.str "terminal") :: tc.toJson)).map LoggerConfig.Terminal =
        some (LoggerConfig.Terminal tc)
      rw [terminal_config_json_roundtrip tc]
      rfl

end Sloggers
